import Mathlib

/-
Verification of the lazy-loaded cache entity model (pycaching/cache.py).

The file shallowly embeds the data model and operations of `cache.py`:
pure functions become Lean functions, the mutable `Cache` object becomes an
explicit state record (`CacheState`), Python exceptions become `Except PyErr`,
Python floats in the difficulty/terrain validators become exact rationals
(all values exercised by the validators are dyadic, so the arithmetic is
exact), and Python dicts become insertion-ordered association lists with
last-write-wins insertion, matching CPython dict semantics.

Collaborator modules that are outside the verified core (`pycaching.geo`,
`pycaching.util`, markup parsing) are modelled by the values they produce:
the `Page` record carries the already-extracted raw strings and parsed
collaborator outputs that `Cache.load` consumes.
-/

deriving instance DecidableEq for Except

/-- Python exception kinds raised by the embedded code.  `validationError`
is the domain error class `errors.ValueError`; `valueError` and `keyError`
are the Python builtins (raised by `enum` lookups the code does not wrap);
`loadError` is `errors.LoadError`, `pmOnly` is `errors.PMOnlyException`. -/
inductive PyErr where
  | validationError (msg : String)
  | valueError (msg : String)
  | keyError (msg : String)
  | loadError (msg : String)
  | pmOnly (msg : String)
  deriving DecidableEq, Repr

/-- True exactly on the domain error class `errors.ValueError`. -/
def PyErr.isValidation : PyErr → Bool
  | .validationError _ => true
  | _ => false

/-! ## Python string primitives.

Modelled structurally over `List Char` so that every definition reduces in
the kernel (the corresponding Lean core functions recurse on byte
positions and do not).  Inputs in this code base are ASCII. -/

/-- Whitespace for Python `str.strip()`. -/
def pyCharIsSpace (c : Char) : Bool :=
  c = ' ' ∨ c = '\t' ∨ c = '\n' ∨ c = '\r' ∨ c = '\x0b' ∨ c = '\x0c'

/-- Python `str.upper()`. -/
def pyUpper (s : String) : String := String.mk (s.data.map Char.toUpper)

/-- Python `str.lower()`. -/
def pyLower (s : String) : String := String.mk (s.data.map Char.toLower)

/-- Python `str.strip()`. -/
def pyTrim (s : String) : String :=
  String.mk (((s.data.dropWhile pyCharIsSpace).reverse.dropWhile
    pyCharIsSpace).reverse)

/-- Python `s.startswith(p)`. -/
def pyStartsWith (s p : String) : Bool := p.data.isPrefixOf s.data

/-- Python `s[n:]` (by characters). -/
def pyDrop (s : String) (n : Nat) : String := String.mk (s.data.drop n)

/-- Replace non-overlapping occurrences of `sub`, left to right; `fuel`
bounds the recursion and is always supplied as more than the input length,
which is enough whenever `sub` is nonempty (the only use here). -/
def replaceAux (sub rep : List Char) : Nat → List Char → List Char
  | 0, l => l
  | _ + 1, [] => []
  | fuel + 1, c :: rest =>
    if sub.isPrefixOf (c :: rest) then
      rep ++ replaceAux sub rep fuel ((c :: rest).drop sub.length)
    else c :: replaceAux sub rep fuel rest

/-- Python `s.replace(sub, rep)` (for nonempty `sub`). -/
def pyReplace (s sub rep : String) : String :=
  String.mk (replaceAux sub.data rep.data (s.data.length + 1) s.data)

/-- Occurrence test behind Python `sub in s`. -/
def strContainsAux (sub : List Char) : List Char → Bool
  | [] => sub.isEmpty
  | c :: rest => sub.isPrefixOf (c :: rest) || strContainsAux sub rest


/-! ## The `Type` enumeration (named `GType` here; `Type` is reserved in Lean).

Python aliases (`unknown = mystery`, `cache_in_trash_out_event = cito`,
`reverse = locationless`) denote the same enum member, so the inductive has
one constructor per canonical member and the aliases are abbreviations. -/

inductive GType where
  | traditional
  | multicache
  | mystery
  | letterbox
  | event
  | mega_event
  | giga_event
  | earthcache
  | cito
  | webcam
  | virtual
  | wherigo
  | lost_and_found_event
  | project_ape
  | groundspeak_hq
  | gps_adventures_exhibit
  | groundspeak_block_party
  | locationless
  deriving DecidableEq, Repr

/-- Python enum alias `Type.unknown`. -/
def GType.unknown : GType := .mystery

/-- Python enum alias `Type.cache_in_trash_out_event`. -/
def GType.cache_in_trash_out_event : GType := .cito

/-- Python enum alias `Type.reverse`. -/
def GType.reverse : GType := .locationless

/-- The enum member values: cache image filename stems. -/
def GType.value : GType → String
  | .traditional => "2"
  | .multicache => "3"
  | .mystery => "8"
  | .letterbox => "5"
  | .event => "6"
  | .mega_event => "mega"
  | .giga_event => "giga"
  | .earthcache => "137"
  | .cito => "13"
  | .webcam => "11"
  | .virtual => "4"
  | .wherigo => "1858"
  | .lost_and_found_event => "10Years_32"
  | .project_ape => "ape_32"
  | .groundspeak_hq => "HQ_32"
  | .gps_adventures_exhibit => "1304"
  | .groundspeak_block_party => "4738"
  | .locationless => "12"

/-- All members of the enumeration, in declaration order. -/
def GType.all : List GType :=
  [.traditional, .multicache, .mystery, .letterbox, .event, .mega_event,
   .giga_event, .earthcache, .cito, .webcam, .virtual, .wherigo,
   .lost_and_found_event, .project_ape, .groundspeak_hq,
   .gps_adventures_exhibit, .groundspeak_block_party, .locationless]

/-- Python `Type(v)`: value lookup, raising the builtin `ValueError`
(`enum` formats it as `<v> is not a valid Type`) on a miss. -/
def GType.byValue (v : String) : Except PyErr GType :=
  match GType.all.find? (fun t => t.value == v) with
  | some t => .ok t
  | none => .error (.valueError (v ++ " is not a valid Type"))

/-- `Type.from_filename`: remap the duplicated earthcache icon token to
"137", then look the filename up as an enum value. -/
def GType.from_filename (filename : String) : Except PyErr GType :=
  let filename := if filename == "earthcache" then "137" else filename
  GType.byValue filename

/-- The normalization applied by `Type.from_string` before the table
lookup: strip the suffix words, lowercase, trim. -/
def GType.normalize (name : String) : String :=
  pyTrim (pyLower (pyReplace (pyReplace name " Geocache" "") " Cache" ""))

/-- The human-readable name table of `Type.from_string`. -/
def GType.name_mapping : List (String × GType) :=
  [("traditional", .traditional),
   ("multi-cache", .multicache),
   ("mystery", .mystery),
   ("unknown", GType.unknown),
   ("letterbox hybrid", .letterbox),
   ("event", .event),
   ("mega-event", .mega_event),
   ("giga-event", .giga_event),
   ("earthcache", .earthcache),
   ("cito", .cito),
   ("cache in trash out event", GType.cache_in_trash_out_event),
   ("webcam", .webcam),
   ("virtual", .virtual),
   ("wherigo", .wherigo),
   ("lost and found event", .lost_and_found_event),
   ("project ape", .project_ape),
   ("groundspeak hq", .groundspeak_hq),
   ("gps adventures exhibit", .gps_adventures_exhibit),
   ("groundspeak block party", .groundspeak_block_party),
   ("locationless (reverse)", .locationless)]

/-- `Type.from_string`: normalize, then table lookup; a `KeyError` miss is
wrapped into the domain error `errors.ValueError` naming the input. -/
def GType.from_string (name : String) : Except PyErr GType :=
  let name := GType.normalize name
  match GType.name_mapping.find? (fun p => p.1 == name) with
  | some p => .ok p.2
  | none => .error (.validationError ("Unknown cache type " ++ name ++ "."))

/-! ## The `Size` enumeration. -/

inductive Size where
  | micro
  | small
  | regular
  | large
  | not_chosen
  | virtual
  | other
  deriving DecidableEq, Repr

/-- The enum member values (human readable names). -/
def Size.value : Size → String
  | .micro => "micro"
  | .small => "small"
  | .regular => "regular"
  | .large => "large"
  | .not_chosen => "not chosen"
  | .virtual => "virtual"
  | .other => "other"

/-- The Python identifier naming each member (used by `Size[...]`). -/
def Size.memberName : Size → String
  | .micro => "micro"
  | .small => "small"
  | .regular => "regular"
  | .large => "large"
  | .not_chosen => "not_chosen"
  | .virtual => "virtual"
  | .other => "other"

/-- All members of the enumeration, in declaration order. -/
def Size.all : List Size :=
  [.micro, .small, .regular, .large, .not_chosen, .virtual, .other]

/-- `Size.from_filename`: Python `Size[filename]`, a lookup by *member
name*, raising the builtin `KeyError` (whose message is the key) on a miss;
the code does not wrap it. -/
def Size.from_filename (filename : String) : Except PyErr Size :=
  match Size.all.find? (fun z => z.memberName == filename) with
  | some z => .ok z
  | none => .error (.keyError filename)

/-- `Size.from_string`: strip + lowercase, then Python `Size(name)` (a
lookup by *value*); the builtin `ValueError` miss is wrapped into the
domain error `errors.ValueError` (the message says "cache type" verbatim). -/
def Size.from_string (name : String) : Except PyErr Size :=
  let name := pyLower (pyTrim name)
  match Size.all.find? (fun z => z.value == name) with
  | some z => .ok z
  | none => .error (.validationError ("Unknown cache type " ++ name ++ "."))

/-! ## Attribute validators (the property setters of `Cache`). -/

/-- The `wp` setter: stringify, uppercase, trim; reject values that do not
start with "GC" (with the domain error `errors.ValueError`). -/
def wp_setter (wp : String) : Except PyErr String :=
  let wp := pyTrim (pyUpper wp)
  if pyStartsWith wp "GC" then .ok wp
  else .error (.validationError ("Waypoint " ++ wp ++ " does not start with GC."))

/-- Python `a % b` for rationals with `b > 0` (`a - b * floor (a / b)`);
the difficulty/terrain validators evaluate it only on dyadic values, where
IEEE double arithmetic is exact, so the rational model is faithful. -/
def pyfmod (a b : ℚ) : ℚ := a - b * (⌊a / b⌋ : ℚ)

/-- The `difficulty` setter: reject values outside `[1, 5]` or whose
`value * 10 % 5` is nonzero (i.e. not a multiple of `0.5`). -/
def difficulty_setter (difficulty : ℚ) : Except PyErr ℚ :=
  if difficulty < 1 ∨ 5 < difficulty ∨ pyfmod (difficulty * 10) 5 ≠ 0 then
    .error (.validationError "Difficulty must be from 1 to 5 and divisible by 0.5.")
  else .ok difficulty

/-- The `terrain` setter: same check as `difficulty`. -/
def terrain_setter (terrain : ℚ) : Except PyErr ℚ :=
  if terrain < 1 ∨ 5 < terrain ∨ pyfmod (terrain * 10) 5 ≠ 0 then
    .error (.validationError "Terrain must be from 1 to 5 and divisible by 0.5.")
  else .ok terrain

/-- The fixed attribute vocabulary `Cache._possible_attributes` (keys). -/
def possible_attributes : List String :=
  ["abandonedbuilding", "available", "bicycles", "boat", "campfires",
   "camping", "cliff", "climbing", "cow", "danger", "dangerousanimals",
   "dogs", "fee", "field_puzzle", "firstaid", "flashlight", "food",
   "frontyard", "fuel", "geotour", "hike_long", "hike_med", "hike_short",
   "hiking", "horses", "hunting", "jeeps", "kids", "landf", "mine",
   "motorcycles", "night", "nightcache", "onehour", "parking", "parkngrab",
   "partnership", "phone", "picnic", "poisonoak", "public", "quads",
   "rappelling", "restrooms", "rv", "s-tool", "scenic", "scuba",
   "seasonal", "skiis", "snowmobiles", "snowshoes", "stealth", "stroller",
   "swimming", "teamwork", "thorn", "ticks", "touristok", "treeclimbing",
   "uv", "wading", "water", "wheelchair", "winter", "wirelessbeacon"]

/-- CPython dict item assignment on an insertion-ordered association list:
replace in place if the key exists, else append. -/
def dictInsert : List (String × Bool) → String → Bool → List (String × Bool)
  | [], k, v => [(k, v)]
  | (k0, v0) :: rest, k, v =>
      if k0 = k then (k0, v) :: rest else (k0, v0) :: dictInsert rest k v

/-- Dict lookup on the association-list model. -/
def dictGet (m : List (String × Bool)) (k : String) : Option Bool :=
  (m.find? (fun p => p.1 == k)).map (fun p => p.2)

/-- The `attributes` setter body: iterate the input dict in order, trim and
lowercase each key, keep entries whose key is in the vocabulary, and log a
warning for (and drop) the others.  Returns the freshly built mapping (the
setter starts from `{}`, discarding any previous mapping) and the warned
names. -/
def attributes_setter (attributes : List (String × Bool)) :
    List (String × Bool) × List String :=
  attributes.foldl
    (fun acc p =>
      let name := pyLower (pyTrim p.1)
      if possible_attributes.contains name then (dictInsert acc.1 name p.2, acc.2)
      else (acc.1, acc.2 ++ [name]))
    ([], [])

/-! ## Python truthiness, for the found-status expression
`found and ("Found It!" or "Attended" in found.text) or False`. -/

/-- The Python values flowing through the found-status expression: `None`,
booleans, strings, and markup tags (a tag is truthy regardless of its
text). -/
inductive PyV where
  | none
  | bool (b : Bool)
  | str (s : String)
  | tag (text : String)
  deriving DecidableEq, Repr

/-- Python truthiness. -/
def PyV.truthy : PyV → Bool
  | .none => false
  | .bool b => b
  | .str s => s ≠ ""
  | .tag _ => true

/-- Python `and` (returns the first falsy operand, else the second). -/
def pyAnd (a b : PyV) : PyV := if a.truthy then b else a

/-- Python `or` (returns the first truthy operand, else the second). -/
def pyOr (a b : PyV) : PyV := if a.truthy then a else b

/-- Python `sub in s` (substring containment). -/
def pyContains (sub s : String) : Bool := strContainsAux sub.data s.data

/-- The text of the found-status tag; never inspected when the tag is
absent (Python short-circuits before evaluating `found.text`). -/
def tagText : Option String → String
  | Option.none => ""
  | Option.some t => t

/-- The raw value of line 409 of `cache.py`:
`found and ("Found It!" or "Attended" in found.text) or False`, where
`found` is the (possibly absent) `FoundStatus` tag.  Python operator
precedence parses the parenthesized part as
`"Found It!" or ("Attended" in found.text)`. -/
def found_raw (found : Option String) : PyV :=
  pyOr
    (pyAnd
      (match found with | Option.none => PyV.none | Option.some t => PyV.tag t)
      (pyOr (PyV.str "Found It!") (PyV.bool (pyContains "Attended" (tagText found)))))
    (PyV.bool false)

/-- The `found` setter: `bool(found)`. -/
def found_setter (found : PyV) : Bool := found.truthy

/-! ## The entity state and the full-load procedure. -/

/-- Modelled from the spec: `Point` from `pycaching.geo` (absent from the
verified core), "geographic coordinate (latitude/longitude pair)". -/
structure Point where
  lat : ℚ
  lon : ℚ
  deriving DecidableEq, Repr

/-- The parsed remote document consumed by `Cache.load`.  Raw extraction by
the markup collaborator (`root.find` calls) and by the out-of-core helpers
(`parse_date`, `Point.from_string`, `rot13`, the `userToken` regular
expression) is modelled by carrying their outputs directly. -/
structure Page where
  /-- a `p.PMOWarning` block is present (premium-only notice) -/
  pmo_warning : Bool
  /-- first word of the document title -/
  title_wp : String
  /-- text of the `h2` name heading -/
  name_text : String
  /-- cache-type icon filename stem -/
  type_filename : String
  /-- author link text -/
  author_text : String
  /-- output of `parse_date` on the hidden-date text (a calendar date,
  encoded as a day count) -/
  hidden_date : Int
  /-- output of `Point.from_string` on the `uxLatLon` text -/
  location_point : Point
  /-- a `ul.OldWarning` block is present (cache disabled) -/
  state_warning : Bool
  /-- text of the `div.FoundStatus` block, absent when no such block -/
  found_tag : Option String
  /-- first word of the difficulty image alt text, as a float -/
  difficulty_alt : ℚ
  /-- first word of the terrain image alt text, as a float -/
  terrain_alt : ℚ
  /-- size icon filename stem -/
  size_filename : String
  /-- (name, appendix) pairs split off the attribute icon filenames -/
  attributes_raw : List (String × String)
  /-- text of the first `UserSuppliedContent` block -/
  summary_text : String
  /-- markup of the second `UserSuppliedContent` block -/
  description_html : String
  /-- output of `rot13` on the stripped hint text -/
  hint_text : String
  /-- favorites count, absent when no `span.favorite-value` block -/
  favorites : Option Int
  /-- `userToken` extracted from the scripts -/
  logbook_token : String
  /-- number of anchors in the inventory widget -/
  inventory_links : Nat
  /-- `href` of the view-all-trackables link (still carrying `../`) -/
  trackable_href : String
  /-- `href` of the log button -/
  log_page_url : String
  deriving DecidableEq, Repr

/-- The attribute store of one `Cache` object.  Every lazily-loaded
attribute is `Option`-valued: `none` models "never assigned" (no `_x`
backing attribute), which is a separate bit from the value being falsy or
`None` (`trackable_page_url` stores an `Option String` *value*).
`loadCount` counts completed invocations of the full-load procedure. -/
structure CacheState where
  url : Option String := none
  wp : Option String := none
  name : Option String := none
  location : Option Point := none
  type : Option GType := none
  state : Option Bool := none
  found : Option Bool := none
  size : Option Size := none
  difficulty : Option ℚ := none
  terrain : Option ℚ := none
  author : Option String := none
  hidden : Option Int := none
  attributes : Option (List (String × Bool)) := none
  summary : Option String := none
  description : Option String := none
  hint : Option String := none
  favorites : Option Int := none
  logbook_token : Option String := none
  trackable_page_url : Option (Option String) := none
  log_page_url : Option String := none
  loadCount : Nat := 0
  deriving DecidableEq, Repr

/-- `Cache.__init__(geocaching, wp)` with no extra keyword arguments: the
waypoint, when given, goes through the `wp` setter; everything else stays
unset. -/
def Cache_init (wp : Option String) : Except PyErr CacheState :=
  match wp with
  | Option.none => .ok {}
  | Option.some w => (wp_setter w).map (fun v => { wp := some v })

/-- Direct assignment `cache.wp = w` on an existing object. -/
def set_wp (c : CacheState) (w : String) : Except PyErr CacheState :=
  (wp_setter w).map (fun v => { c with wp := some v })

/-- Direct assignment `cache.attributes = d` on an existing object: the
setter rebuilds the mapping from scratch (`self._attributes = {}`), so the
previous mapping does not contribute. -/
def set_attributes (c : CacheState) (d : List (String × Bool)) : CacheState :=
  { c with attributes := some (attributes_setter d).1 }

/-- The dict comprehension feeding the `attributes` setter in `load`:
`{name: appendix.startswith("yes") for name, appendix in attributes_raw
  if not appendix.startswith("blank")}`. -/
def attributes_from_raw (raw : List (String × String)) : List (String × Bool) :=
  (raw.filter (fun p => !(pyStartsWith p.2 "blank"))).map
    (fun p => (p.1, pyStartsWith p.2 "yes"))

/-- `Cache.load`: the full-load procedure.  Fails with `LoadError` when
neither a URL nor a waypoint is available, with `PMOnlyException` on the
premium-only notice, and otherwise runs the extracted raw data through the
validators (in the source's evaluation order of the fallible ones: `wp`,
`Type.from_filename`, difficulty, terrain, `Size.from_filename`) and
assigns every lazily-loaded attribute.  The partial state Python leaves
behind when a validator raises mid-sequence is not modelled: an error
aborts the load and the claims below only concern successful loads. -/
def Cache.load (c : CacheState) (page : Page) : Except PyErr CacheState :=
  if c.url = none ∧ c.wp = none then
    .error (.loadError "Cache lacks info for loading")
  else if page.pmo_warning then
    .error (.pmOnly "Premium Members only.")
  else
    match wp_setter page.title_wp with
    | .error e => .error e
    | .ok w =>
      match GType.from_filename page.type_filename with
      | .error e => .error e
      | .ok ty =>
        match difficulty_setter page.difficulty_alt with
        | .error e => .error e
        | .ok dif =>
          match terrain_setter page.terrain_alt with
          | .error e => .error e
          | .ok ter =>
            match Size.from_filename page.size_filename with
            | .error e => .error e
            | .ok sz =>
              .ok { c with
                wp := some w,
                name := some (pyTrim page.name_text),
                type := some ty,
                author := some (pyTrim page.author_text),
                hidden := some page.hidden_date,
                location := some page.location_point,
                state := some (!page.state_warning),
                found := some (found_setter (found_raw page.found_tag)),
                difficulty := some dif,
                terrain := some ter,
                size := some sz,
                attributes := some (attributes_setter (attributes_from_raw page.attributes_raw)).1,
                summary := some (pyTrim page.summary_text),
                description := some (pyTrim page.description_html),
                hint := some (pyTrim page.hint_text),
                favorites := some (page.favorites.getD 0),
                logbook_token := some page.logbook_token,
                trackable_page_url :=
                  some (if page.inventory_links ≥ 3
                        then some (pyDrop page.trackable_href 3)
                        else none),
                log_page_url := some page.log_page_url,
                loadCount := c.loadCount + 1 }

/-- Modelled from the spec: the `lazy_loaded` decorator from
`pycaching.util` (absent from the verified core).  "every optional
attribute access on an entity checks whether the backing value is set.  If
unset, [...] the protocol invokes the entity's full-load procedure once,
then re-reads the (now populated) value.  If the backing value remains
unset after a load attempt, the access fails the same way.  The protocol
must not re-trigger a load once a value is set" — the missing-identity
check is performed by `Cache.load` itself. -/
def lazy_get {α : Type} (get : CacheState → Option α) (c : CacheState)
    (page : Page) : Except PyErr (α × CacheState) :=
  match get c with
  | some v => .ok (v, c)
  | none =>
    match Cache.load c page with
    | .error e => .error e
    | .ok c1 =>
      match get c1 with
      | some v => .ok (v, c1)
      | none => .error (.loadError "Value not set after a load attempt")

/-- Lazy read of `cache.name`. -/
def read_name : CacheState → Page → Except PyErr (String × CacheState) :=
  lazy_get (fun c => c.name)

/-- Lazy read of `cache.location`. -/
def read_location : CacheState → Page → Except PyErr (Point × CacheState) :=
  lazy_get (fun c => c.location)

/-- Lazy read of `cache.type`. -/
def read_type : CacheState → Page → Except PyErr (GType × CacheState) :=
  lazy_get (fun c => c.type)

/-- Lazy read of `cache.state`. -/
def read_state : CacheState → Page → Except PyErr (Bool × CacheState) :=
  lazy_get (fun c => c.state)

/-- Lazy read of `cache.found`. -/
def read_found : CacheState → Page → Except PyErr (Bool × CacheState) :=
  lazy_get (fun c => c.found)

/-- Lazy read of `cache.size`. -/
def read_size : CacheState → Page → Except PyErr (Size × CacheState) :=
  lazy_get (fun c => c.size)

/-- Lazy read of `cache.difficulty`. -/
def read_difficulty : CacheState → Page → Except PyErr (ℚ × CacheState) :=
  lazy_get (fun c => c.difficulty)

/-- Lazy read of `cache.terrain`. -/
def read_terrain : CacheState → Page → Except PyErr (ℚ × CacheState) :=
  lazy_get (fun c => c.terrain)

/-- Lazy read of `cache.author`. -/
def read_author : CacheState → Page → Except PyErr (String × CacheState) :=
  lazy_get (fun c => c.author)

/-- Lazy read of `cache.hidden`. -/
def read_hidden : CacheState → Page → Except PyErr (Int × CacheState) :=
  lazy_get (fun c => c.hidden)

/-- Lazy read of `cache.attributes`. -/
def read_attributes :
    CacheState → Page → Except PyErr (List (String × Bool) × CacheState) :=
  lazy_get (fun c => c.attributes)

/-- Lazy read of `cache.summary`. -/
def read_summary : CacheState → Page → Except PyErr (String × CacheState) :=
  lazy_get (fun c => c.summary)

/-- Lazy read of `cache.description`. -/
def read_description : CacheState → Page → Except PyErr (String × CacheState) :=
  lazy_get (fun c => c.description)

/-- Lazy read of `cache.hint`. -/
def read_hint : CacheState → Page → Except PyErr (String × CacheState) :=
  lazy_get (fun c => c.hint)

/-- Lazy read of `cache.favorites`. -/
def read_favorites : CacheState → Page → Except PyErr (Int × CacheState) :=
  lazy_get (fun c => c.favorites)

/-- Lazy read of `cache.logbook_token`. -/
def read_logbook_token : CacheState → Page → Except PyErr (String × CacheState) :=
  lazy_get (fun c => c.logbook_token)

/-- Lazy read of `cache.trackable_page_url` (whose *value* may itself be
`None`, still counting as set). -/
def read_trackable_page_url :
    CacheState → Page → Except PyErr (Option String × CacheState) :=
  lazy_get (fun c => c.trackable_page_url)

/-- Lazy read of `cache.log_page_url`. -/
def read_log_page_url : CacheState → Page → Except PyErr (String × CacheState) :=
  lazy_get (fun c => c.log_page_url)

/-! ## Paginated logbook retrieval. -/

/-- One raw logbook entry of the JSON envelope. -/
structure LogData where
  logType : String
  logText : String
  visited : String
  userName : String
  deriving DecidableEq, Repr

/-- One `Log` object as filled by `load_logbook`. -/
structure Log where
  type : String
  text : String
  visited : String
  author : String
  deriving DecidableEq, Repr

/-- `Log` construction from one raw entry. -/
def Log.fromData (d : LogData) : Log :=
  { type := d.logType, text := d.logText, visited := d.visited,
    author := d.userName }

/-- The JSON envelope of one logbook page. -/
structure LogbookRes where
  status : String
  msg : Option String
  data : List LogData
  deriving DecidableEq, Repr

/-- The `limit` parameter: Python's `float("inf")` default or a finite
number (kept as an integer so that the `limit -= 1; if limit < 0` dance can
go negative, as in the source). -/
inductive PyLimit where
  | inf
  | fin (n : Int)
  deriving DecidableEq, Repr

/-- `limit -= 1`. -/
def PyLimit.dec : PyLimit → PyLimit
  | .inf => .inf
  | .fin n => .fin (n - 1)

/-- `limit < 0`. -/
def PyLimit.isNeg : PyLimit → Bool
  | .inf => false
  | .fin n => n < 0

/-- `per_page = min(limit, 100)`, computed once before the page loop. -/
def PyLimit.min100 : PyLimit → Int
  | .inf => 100
  | .fin n => min n 100

/-- The inner `for log_data in logbook_page` loop: decrement the limit
before each entry, stop (raise `StopIteration`) when it goes negative, else
yield the entry.  Returns the yielded logs, the remaining limit, and
whether the limit cut the page short. -/
def logbook_consume : List LogData → PyLimit → List Log × PyLimit × Bool
  | [], lim => ([], lim, false)
  | d :: ds, lim =>
    let lim1 := lim.dec
    if lim1.isNeg then ([], lim1, true)
    else
      let rest := logbook_consume ds lim1
      (Log.fromData d :: rest.1, rest.2.1, rest.2.2)

/-- The `while True` page loop of `load_logbook`, driven by a page source
(mapping one-based page index and requested page size to a JSON envelope,
as `_logbook_get_page` does).  Returns the trace of page requests
`(idx, num)` in order, and either the yielded logs or the error that ended
the iteration (an earlier partial yield is not modelled — the claims below
only exercise successful runs).  `raise StopIteration` inside the generator
ends the iteration normally (the semantics this code targets).  `fuel`
bounds the recursion; every theorem below supplies enough of it. -/
def logbook_loop (source : Nat → Int → LogbookRes) (per_page : Int) :
    Nat → Nat → PyLimit → List (Nat × Int) × Except PyErr (List Log)
  | 0, _, _ => ([], .ok [])
  | fuel + 1, page, lim =>
    let res := source (page + 1) per_page
    if res.status ≠ "success" then
      ([(page + 1, per_page)],
       .error (.loadError ("Logbook cannot be loaded: " ++
         res.msg.getD "Unknown error")))
    else if res.data.isEmpty then
      ([(page + 1, per_page)], .ok [])
    else
      match logbook_consume res.data lim with
      | (ls, _, true) => ([(page + 1, per_page)], .ok ls)
      | (ls, lim1, false) =>
        let rest := logbook_loop source per_page fuel (page + 1) lim1
        ((page + 1, per_page) :: rest.1, rest.2.map (fun more => ls ++ more))

/-- `load_logbook(limit)`: reset the accumulating collection, fix
`per_page = min(limit, 100)`, and run the page loop from page 0. -/
def load_logbook (source : Nat → Int → LogbookRes) (limit : PyLimit)
    (fuel : Nat) : List (Nat × Int) × Except PyErr (List Log) :=
  logbook_loop source limit.min100 fuel 0 limit

/-! ## Statement helpers and concrete fixtures. -/

/-- The value of the *last* input entry whose trimmed + lowercased key
equals `key` (`none` when no entry matches) — how CPython dict insertion
resolves two raw keys that normalize to the same name. -/
def lastAttrValue : List (String × Bool) → String → Option Bool
  | [], _ => none
  | p :: rest, key =>
    match lastAttrValue rest key with
    | some v => some v
    | none => if pyLower (pyTrim p.1) == key then some p.2 else none

/-- A concrete parsed document on which `Cache.load` succeeds. -/
def wit_page : Page where
  pmo_warning := false
  title_wp := "GC1N"
  name_text := " Sample "
  type_filename := "2"
  author_text := "Alice"
  hidden_date := 16234
  location_point := { lat := 1 / 2, lon := 3 / 4 }
  state_warning := false
  found_tag := some "some unrelated text"
  difficulty_alt := 3 / 2
  terrain_alt := 1
  size_filename := "micro"
  attributes_raw := [("dogs", "yes.gif"), ("made_up_key", "yes.gif"), ("fee", "blank.gif")]
  summary_text := "sum"
  description_html := "desc"
  hint_text := "decoded hint"
  favorites := some 5
  logbook_token := "TOK"
  inventory_links := 3
  trackable_href := "../track"
  log_page_url := "log.aspx"

/-- The state of a cache constructed from only the waypoint "GC1N". -/
def wit_c0 : CacheState := { wp := some "GC1N" }

/-- The state after a successful full load from `wit_page` (the load
overwrites every lazily-loaded attribute, so this is also the result of
loading any url-less input state with `loadCount = 0`). -/
def wit_c1 : CacheState where
  url := none
  wp := some "GC1N"
  name := some "Sample"
  location := some { lat := 1 / 2, lon := 3 / 4 }
  type := some GType.traditional
  state := some true
  found := some true
  size := some Size.micro
  difficulty := some (3 / 2)
  terrain := some 1
  author := some "Alice"
  hidden := some 16234
  attributes := some [("dogs", true)]
  summary := some "sum"
  description := some "desc"
  hint := some "decoded hint"
  favorites := some 5
  logbook_token := some "TOK"
  trackable_page_url := some (some "track")
  log_page_url := some "log.aspx"
  loadCount := 1

/-- A cache whose waypoint is already set (for the immutability claim). -/
def wit_c2 : CacheState := { wp := some "GC100" }

/-- A logbook source whose every page is empty (and succeeds). -/
def empty_source : Nat → Int → LogbookRes :=
  fun _ _ => { status := "success", msg := none, data := [] }

/-- One concrete raw logbook entry. -/
def sample_entry : LogData :=
  { logType := "Found it", logText := "Nice", visited := "01/02/2014",
    userName := "alice" }

/-- A logbook source serving three entries on every page (and succeeding),
whatever page size is requested. -/
def pages_of_three : Nat → Int → LogbookRes :=
  fun _ _ => { status := "success", msg := none,
               data := [sample_entry, sample_entry, sample_entry] }

/-! ## Helper lemmas. -/

/-- `find?` misses when the predicate holds nowhere on the list. -/
theorem find?_eq_none_of_all {α : Type} {p : α → Bool} {l : List α}
    (h : ∀ x ∈ l, p x = false) : l.find? p = none :=
  List.find?_eq_none.mpr (fun x hx => by simp [h x hx])


/-- Successful `wp` validation returns the uppercased, trimmed string. -/
theorem wp_setter_ok {s w : String} (h : wp_setter s = .ok w) :
    w = pyTrim (pyUpper s) ∧ pyStartsWith (pyTrim (pyUpper s)) "GC" = true := by
  simp only [wp_setter] at h
  split at h
  · next hc => exact ⟨(Except.ok.injEq _ _).mp h |>.symm, hc⟩
  · exact absurd h (by simp)

/-- Shape of a successful full load: the five fallible validators all
succeeded and the result is the input state with every lazily-loaded
attribute assigned. -/
theorem load_ok_shape {c : CacheState} {page : Page} {c1 : CacheState}
    (h : Cache.load c page = .ok c1) :
    ∃ w ty dif ter sz,
      wp_setter page.title_wp = .ok w ∧
      GType.from_filename page.type_filename = .ok ty ∧
      difficulty_setter page.difficulty_alt = .ok dif ∧
      terrain_setter page.terrain_alt = .ok ter ∧
      Size.from_filename page.size_filename = .ok sz ∧
      c1 = { c with
        wp := some w,
        name := some (pyTrim page.name_text),
        type := some ty,
        author := some (pyTrim page.author_text),
        hidden := some page.hidden_date,
        location := some page.location_point,
        state := some (!page.state_warning),
        found := some (found_setter (found_raw page.found_tag)),
        difficulty := some dif,
        terrain := some ter,
        size := some sz,
        attributes := some (attributes_setter (attributes_from_raw page.attributes_raw)).1,
        summary := some (pyTrim page.summary_text),
        description := some (pyTrim page.description_html),
        hint := some (pyTrim page.hint_text),
        favorites := some (page.favorites.getD 0),
        logbook_token := some page.logbook_token,
        trackable_page_url :=
          some (if page.inventory_links ≥ 3
                then some (pyDrop page.trackable_href 3)
                else none),
        log_page_url := some page.log_page_url,
        loadCount := c.loadCount + 1 } := by
  unfold Cache.load at h
  split at h
  · exact absurd h (by simp)
  split at h
  · exact absurd h (by simp)
  cases hw : wp_setter page.title_wp with
  | error e => rw [hw] at h; exact absurd h (by simp)
  | ok w =>
    rw [hw] at h
    cases hty : GType.from_filename page.type_filename with
    | error e => rw [hty] at h; exact absurd h (by simp)
    | ok ty =>
      rw [hty] at h
      cases hd : difficulty_setter page.difficulty_alt with
      | error e => rw [hd] at h; exact absurd h (by simp)
      | ok dif =>
        rw [hd] at h
        cases ht : terrain_setter page.terrain_alt with
        | error e => rw [ht] at h; exact absurd h (by simp)
        | ok ter =>
          rw [ht] at h
          cases hs : Size.from_filename page.size_filename with
          | error e => rw [hs] at h; exact absurd h (by simp)
          | ok sz =>
            rw [hs] at h
            exact ⟨w, ty, dif, ter, sz, rfl, rfl, rfl, rfl, rfl,
              ((Except.ok.injEq _ _).mp h).symm⟩

/-- `d * 10 % 5 == 0` holds exactly on the half-integer grid. -/
theorem pyfmod_half_iff (d : ℚ) :
    pyfmod (d * 10) 5 = 0 ↔ ∃ k : ℤ, d = (k : ℚ) / 2 := by
  unfold pyfmod
  have h2 : d * 10 / 5 = 2 * d := by ring
  rw [h2]
  constructor
  · intro h
    refine ⟨⌊2 * d⌋, ?_⟩
    have hfl : ((⌊2 * d⌋ : ℤ) : ℚ) = 2 * d := by linarith
    linarith
  · rintro ⟨k, rfl⟩
    have hk : 2 * ((k : ℚ) / 2) = (k : ℚ) := by ring
    rw [hk, Int.floor_intCast]
    ring

/-- The found-status expression is true exactly when the block exists,
whatever its text. -/
theorem found_raw_eq_isSome (t : Option String) :
    found_setter (found_raw t) = t.isSome := by
  cases t <;> rfl

/-- Lookup on a nonempty dict. -/
theorem dictGet_cons (hd : String × Bool) (tl : List (String × Bool))
    (key : String) :
    dictGet (hd :: tl) key = if hd.1 = key then some hd.2 else dictGet tl key := by
  by_cases h : hd.1 = key
  · rw [if_pos h]
    unfold dictGet
    rw [List.find?_cons_of_pos _ (by simp [h])]
    rfl
  · rw [if_neg h]
    unfold dictGet
    rw [List.find?_cons_of_neg _ (by simp [h])]

/-- Lookup after dict insertion. -/
theorem dictGet_insert (m : List (String × Bool)) (k : String) (v : Bool)
    (key : String) :
    dictGet (dictInsert m k v) key = if key = k then some v else dictGet m key := by
  induction m with
  | nil =>
    simp only [dictInsert]
    rw [dictGet_cons]
    by_cases h : key = k
    · rw [if_pos h.symm, if_pos h]
    · rw [if_neg (fun hh => h hh.symm), if_neg h]
  | cons hd tl ih =>
    by_cases hh : hd.1 = k
    · simp only [dictInsert, if_pos hh]
      rw [dictGet_cons, dictGet_cons]
      by_cases h : key = k
      · rw [if_pos (show hd.1 = key from hh.trans h.symm), if_pos h]
      · have hk : ¬ hd.1 = key := fun he => h (he.symm.trans hh)
        rw [if_neg hk, if_neg h, if_neg hk]
    · simp only [dictInsert, if_neg hh]
      rw [dictGet_cons, ih, dictGet_cons]
      by_cases h2 : hd.1 = key
      · have : ¬ key = k := fun he => hh (h2.trans he)
        rw [if_pos h2, if_neg this, if_pos h2]
      · rw [if_neg h2, if_neg h2]

/-- Lookup in the mapping built by the `attributes` setter: a key outside
the vocabulary is never stored; a key inside gets the value of the last
input entry normalizing to it. -/
theorem attributes_setter_get (input : List (String × Bool)) (key : String) :
    dictGet (attributes_setter input).1 key =
      if possible_attributes.contains key = true then lastAttrValue input key
      else none := by
  suffices h : ∀ acc : List (String × Bool) × List String,
      dictGet (input.foldl
        (fun acc p =>
          let name := pyLower (pyTrim p.1)
          if possible_attributes.contains name then (dictInsert acc.1 name p.2, acc.2)
          else (acc.1, acc.2 ++ [name]))
        acc).1 key =
      (if possible_attributes.contains key = true then
        (match lastAttrValue input key with
         | some v => some v
         | none => dictGet acc.1 key)
       else dictGet acc.1 key) by
    have hbase := h ([], [])
    rw [attributes_setter, hbase]
    cases hv : possible_attributes.contains key with
    | false =>
      simp only [hv, Bool.false_eq_true, if_false]
      rfl
    | true =>
      simp only [hv, if_true]
      cases hl : lastAttrValue input key with
      | none => simp [dictGet]
      | some v => simp
  induction input with
  | nil =>
    intro acc
    simp only [List.foldl_nil, lastAttrValue]
    cases possible_attributes.contains key <;> simp
  | cons p rest ih =>
    intro acc
    rw [List.foldl_cons, ih]
    have hstep :
        dictGet (if possible_attributes.contains (pyLower (pyTrim p.1)) = true
          then (dictInsert acc.1 (pyLower (pyTrim p.1)) p.2, acc.2)
          else (acc.1, acc.2 ++ [pyLower (pyTrim p.1)])).1 key =
        (if (pyLower (pyTrim p.1)) = key ∧
            possible_attributes.contains (pyLower (pyTrim p.1)) = true
         then some p.2 else dictGet acc.1 key) := by
      cases hv : possible_attributes.contains (pyLower (pyTrim p.1)) with
      | true =>
        simp only [hv, if_true, dictGet_insert, and_true]
        by_cases hm : (pyLower (pyTrim p.1)) = key
        · rw [if_pos hm.symm, if_pos hm]
        · rw [if_neg (fun he => hm he.symm), if_neg hm]
      | false =>
        simp only [hv, Bool.false_eq_true, if_false, and_false]
    rw [hstep]
    by_cases hm : (pyLower (pyTrim p.1)) = key
    · subst hm
      simp only [lastAttrValue, beq_self_eq_true, if_true, true_and]
      cases hv : possible_attributes.contains (pyLower (pyTrim p.1)) with
      | true =>
        simp only [hv, if_true]
        cases hl : lastAttrValue rest (pyLower (pyTrim p.1)) <;> simp
      | false =>
        simp only [hv, Bool.false_eq_true, if_false]
    · have hbeq : ((pyLower (pyTrim p.1)) == key) = false := by
        simp [beq_iff_eq, hm]
      simp only [lastAttrValue, hbeq, Bool.false_eq_true, if_false,
        (show ¬ ((pyLower (pyTrim p.1)) = key ∧
            possible_attributes.contains (pyLower (pyTrim p.1)) = true)
          from fun hc => hm hc.1)]
      cases hl : lastAttrValue rest key <;> rfl

/-- C1: for every Cache constructed with only a waypoint key, reading the
unset lazily-loaded attribute `name` invokes the full-load procedure
exactly once (the load counter goes from 0 to 1) and returns the
now-populated value; the load populates every lazily-loaded attribute, so
subsequent reads of any other unset lazily-loaded attribute return a value
with the state unchanged — no further load. -/
theorem C1_lazy_single_load (w : String) (page : Page) (c0 c1 : CacheState)
    (h0 : Cache_init (some w) = .ok c0)
    (h1 : Cache.load c0 page = .ok c1) :
    read_name c0 page = .ok (pyTrim page.name_text, c1) ∧
    c0.loadCount = 0 ∧ c1.loadCount = 1 ∧
    (∃ v, read_location c1 page = .ok (v, c1)) ∧
    (∃ v, read_type c1 page = .ok (v, c1)) ∧
    (∃ v, read_state c1 page = .ok (v, c1)) ∧
    (∃ v, read_found c1 page = .ok (v, c1)) ∧
    (∃ v, read_size c1 page = .ok (v, c1)) ∧
    (∃ v, read_difficulty c1 page = .ok (v, c1)) ∧
    (∃ v, read_terrain c1 page = .ok (v, c1)) ∧
    (∃ v, read_author c1 page = .ok (v, c1)) ∧
    (∃ v, read_hidden c1 page = .ok (v, c1)) ∧
    (∃ v, read_attributes c1 page = .ok (v, c1)) ∧
    (∃ v, read_summary c1 page = .ok (v, c1)) ∧
    (∃ v, read_description c1 page = .ok (v, c1)) ∧
    (∃ v, read_hint c1 page = .ok (v, c1)) ∧
    (∃ v, read_favorites c1 page = .ok (v, c1)) ∧
    (∃ v, read_logbook_token c1 page = .ok (v, c1)) ∧
    (∃ v, read_trackable_page_url c1 page = .ok (v, c1)) ∧
    (∃ v, read_name c1 page = .ok (v, c1)) ∧
    (∃ v, read_log_page_url c1 page = .ok (v, c1)) := by
  simp only [Cache_init] at h0
  cases hw : wp_setter w with
  | error e =>
    rw [hw] at h0
    exact absurd h0 (by simp [Except.map])
  | ok v =>
    rw [hw] at h0
    simp only [Except.map] at h0
    rw [Except.ok.injEq] at h0
    subst h0
    obtain ⟨w1, ty, dif, ter, sz, hw1, hty, hd, ht, hs, hc1⟩ := load_ok_shape h1
    subst hc1
    have hread : ∀ {α : Type} (get : CacheState → Option α) (x : α),
        ∀ cc : CacheState, get cc = some x →
        lazy_get get cc page = .ok (x, cc) := by
      intro α get x cc hx
      simp [lazy_get, hx]
    refine ⟨?_, rfl, rfl, ?_, ?_, ?_, ?_, ?_, ?_, ?_, ?_, ?_, ?_, ?_, ?_,
      ?_, ?_, ?_, ?_, ?_, ?_⟩
    · simp [read_name, lazy_get, h1]
    · exact ⟨_, hread (fun c => c.location) _ _ rfl⟩
    · exact ⟨_, hread (fun c => c.type) _ _ rfl⟩
    · exact ⟨_, hread (fun c => c.state) _ _ rfl⟩
    · exact ⟨_, hread (fun c => c.found) _ _ rfl⟩
    · exact ⟨_, hread (fun c => c.size) _ _ rfl⟩
    · exact ⟨_, hread (fun c => c.difficulty) _ _ rfl⟩
    · exact ⟨_, hread (fun c => c.terrain) _ _ rfl⟩
    · exact ⟨_, hread (fun c => c.author) _ _ rfl⟩
    · exact ⟨_, hread (fun c => c.hidden) _ _ rfl⟩
    · exact ⟨_, hread (fun c => c.attributes) _ _ rfl⟩
    · exact ⟨_, hread (fun c => c.summary) _ _ rfl⟩
    · exact ⟨_, hread (fun c => c.description) _ _ rfl⟩
    · exact ⟨_, hread (fun c => c.hint) _ _ rfl⟩
    · exact ⟨_, hread (fun c => c.favorites) _ _ rfl⟩
    · exact ⟨_, hread (fun c => c.logbook_token) _ _ rfl⟩
    · exact ⟨_, hread (fun c => c.trackable_page_url) _ _ rfl⟩
    · exact ⟨_, hread (fun c => c.name) _ _ rfl⟩
    · exact ⟨_, hread (fun c => c.log_page_url) _ _ rfl⟩

/-- Evaluation of the difficulty validator at the concrete page value. -/
theorem wit_difficulty_eval :
    difficulty_setter wit_page.difficulty_alt = .ok (3 / 2 : ℚ) := by
  have hmod : pyfmod ((3 / 2 : ℚ) * 10) 5 = 0 :=
    (pyfmod_half_iff (3 / 2)).mpr ⟨3, by norm_num⟩
  show difficulty_setter (3 / 2) = .ok (3 / 2)
  unfold difficulty_setter
  rw [if_neg (by push_neg; exact ⟨by norm_num, by norm_num, hmod⟩)]

/-- Evaluation of the terrain validator at the concrete page value. -/
theorem wit_terrain_eval :
    terrain_setter wit_page.terrain_alt = .ok (1 : ℚ) := by
  have hmod : pyfmod ((1 : ℚ) * 10) 5 = 0 :=
    (pyfmod_half_iff 1).mpr ⟨2, by norm_num⟩
  show terrain_setter (1 : ℚ) = .ok (1 : ℚ)
  unfold terrain_setter
  rw [if_neg (by push_neg; exact ⟨by norm_num, by norm_num, hmod⟩)]

/-- The concrete full load succeeds and yields `wit_c1`. -/
theorem wit_load_eq : Cache.load wit_c0 wit_page = .ok wit_c1 := by
  have hwp : wp_setter wit_page.title_wp = .ok "GC1N" := by decide
  have hty : GType.from_filename wit_page.type_filename = .ok GType.traditional := by decide
  have hsz : Size.from_filename wit_page.size_filename = .ok Size.micro := by decide
  unfold Cache.load
  rw [if_neg (by decide), if_neg (by decide)]
  simp only [hwp, hty, wit_difficulty_eval, wit_terrain_eval, hsz]
  rfl

/-- Loading `wit_c2` from the same page also succeeds, with the same
result (the load overwrites every attribute but `url` and starts from the
same load count). -/
theorem wit_load_eq2 : Cache.load wit_c2 wit_page = .ok wit_c1 := by
  have hwp : wp_setter wit_page.title_wp = .ok "GC1N" := by decide
  have hty : GType.from_filename wit_page.type_filename = .ok GType.traditional := by decide
  have hsz : Size.from_filename wit_page.size_filename = .ok Size.micro := by decide
  unfold Cache.load
  rw [if_neg (by decide), if_neg (by decide)]
  simp only [hwp, hty, wit_difficulty_eval, wit_terrain_eval, hsz]
  rfl

/-- C1 witness: the concrete cache `wit_c0` (constructed from waypoint
"GC1N" only) and document `wit_page` discharge the hypotheses of the C1
theorem. -/
theorem C1_lazy_single_load_witness :
    read_name wit_c0 wit_page = .ok (pyTrim wit_page.name_text, wit_c1) ∧
    wit_c0.loadCount = 0 ∧ wit_c1.loadCount = 1 ∧
    (∃ v, read_location wit_c1 wit_page = .ok (v, wit_c1)) ∧
    (∃ v, read_type wit_c1 wit_page = .ok (v, wit_c1)) ∧
    (∃ v, read_state wit_c1 wit_page = .ok (v, wit_c1)) ∧
    (∃ v, read_found wit_c1 wit_page = .ok (v, wit_c1)) ∧
    (∃ v, read_size wit_c1 wit_page = .ok (v, wit_c1)) ∧
    (∃ v, read_difficulty wit_c1 wit_page = .ok (v, wit_c1)) ∧
    (∃ v, read_terrain wit_c1 wit_page = .ok (v, wit_c1)) ∧
    (∃ v, read_author wit_c1 wit_page = .ok (v, wit_c1)) ∧
    (∃ v, read_hidden wit_c1 wit_page = .ok (v, wit_c1)) ∧
    (∃ v, read_attributes wit_c1 wit_page = .ok (v, wit_c1)) ∧
    (∃ v, read_summary wit_c1 wit_page = .ok (v, wit_c1)) ∧
    (∃ v, read_description wit_c1 wit_page = .ok (v, wit_c1)) ∧
    (∃ v, read_hint wit_c1 wit_page = .ok (v, wit_c1)) ∧
    (∃ v, read_favorites wit_c1 wit_page = .ok (v, wit_c1)) ∧
    (∃ v, read_logbook_token wit_c1 wit_page = .ok (v, wit_c1)) ∧
    (∃ v, read_trackable_page_url wit_c1 wit_page = .ok (v, wit_c1)) ∧
    (∃ v, read_name wit_c1 wit_page = .ok (v, wit_c1)) ∧
    (∃ v, read_log_page_url wit_c1 wit_page = .ok (v, wit_c1)) :=
  C1_lazy_single_load "GC1N" wit_page wit_c0 wit_c1 rfl wit_load_eq

/-- C2 counterexample: assigning a new valid waypoint to a cache whose
waypoint is already set replaces the stored value — the setter enforces no
immutability. -/
theorem C2_waypoint_mutable_counterexample :
    set_wp wit_c2 "GC200" = .ok { wit_c2 with wp := some "GC200" } ∧
    ({ wit_c2 with wp := some "GC200" } : CacheState).wp ≠ wit_c2.wp := by
  exact ⟨rfl, by decide⟩

/-- C2 amended: the waypoint is not immutable.  A later valid direct
assignment replaces the stored waypoint with the uppercased, trimmed new
value, whatever was stored before; and a successful full load overwrites
the waypoint with the value extracted from the page title. -/
theorem C2_wp_assign_replaces (c : CacheState) (w : String)
    (h : pyStartsWith (pyTrim (pyUpper w)) "GC" = true) :
    set_wp c w = .ok { c with wp := some (pyTrim (pyUpper w)) } ∧
    (∀ page c1, Cache.load c page = .ok c1 →
      c1.wp = some (pyTrim (pyUpper page.title_wp))) := by
  constructor
  · have hw : wp_setter w = .ok (pyTrim (pyUpper w)) := by
      simp only [wp_setter]
      rw [if_pos h]
    unfold set_wp
    rw [hw]
    rfl
  · intro page c1 h1
    obtain ⟨w1, ty, dif, ter, sz, hw1, _, _, _, _, hc1⟩ := load_ok_shape h1
    obtain ⟨hw1e, _⟩ := wp_setter_ok hw1
    subst hc1
    simp [hw1e]

/-- C2 witness: assigning "gc200 " to a cache holding "GC100" stores
"GC200"; the concrete successful load overwrites the waypoint from the
page title. -/
theorem C2_wp_assign_replaces_witness :
    set_wp wit_c2 "gc200 " = .ok { wit_c2 with wp := some "GC200" } ∧
    wit_c1.wp = some "GC1N" :=
  ⟨(C2_wp_assign_replaces wit_c2 "gc200 " (by decide)).1,
   (C2_wp_assign_replaces wit_c2 "gc200 " (by decide)).2 wit_page wit_c1
     wit_load_eq2⟩

/-- C3 counterexample: outside the alias tables, `Size.from_filename`
raises the builtin `KeyError` and `Type.from_filename` the builtin
`ValueError` — neither is the domain validation error
(`errors.ValueError`) the claim requires of all four entry points. -/
theorem C3_domain_error_counterexample :
    Size.from_filename "bogus" = .error (.keyError "bogus") ∧
    PyErr.isValidation (.keyError "bogus") = false ∧
    GType.from_filename "bogus" = .error (.valueError "bogus is not a valid Type") ∧
    PyErr.isValidation (.valueError "bogus is not a valid Type") = false :=
  ⟨by decide, rfl, by decide, rfl⟩

/-- C3 amended: on any input outside its table, each of the four
normalization entry points fails with an error naming the unrecognized
input and never returns an enumeration value; the two `from_string` paths
raise the wrapped domain validation error, while `Type.from_filename`
propagates the builtin `ValueError` and `Size.from_filename` the builtin
`KeyError`. -/
theorem C3_normalization_total_failure :
    (∀ s : String,
      (∀ t : GType, t.value ≠ (if s == "earthcache" then "137" else s)) →
      GType.from_filename s = .error (.valueError
        ((if s == "earthcache" then "137" else s) ++ " is not a valid Type"))) ∧
    (∀ s : String,
      (∀ p ∈ GType.name_mapping, p.1 ≠ GType.normalize s) →
      GType.from_string s = .error (.validationError
        ("Unknown cache type " ++ GType.normalize s ++ "."))) ∧
    (∀ s : String,
      (∀ z : Size, z.memberName ≠ s) →
      Size.from_filename s = .error (.keyError s)) ∧
    (∀ s : String,
      (∀ z : Size, z.value ≠ pyLower (pyTrim s)) →
      Size.from_string s = .error (.validationError
        ("Unknown cache type " ++ pyLower (pyTrim s) ++ "."))) := by
  refine ⟨?_, ?_, ?_, ?_⟩
  · intro s h
    have hf : GType.all.find?
        (fun t => t.value == (if s == "earthcache" then "137" else s)) = none :=
      find?_eq_none_of_all (fun t _ => by simpa using h t)
    simp only [GType.from_filename, GType.byValue, hf]
  · intro s h
    have hf : GType.name_mapping.find? (fun p => p.1 == GType.normalize s) = none :=
      find?_eq_none_of_all (fun p hp => by simp [h p hp])
    simp only [GType.from_string, hf]
  · intro s h
    have hf : Size.all.find? (fun z => z.memberName == s) = none :=
      find?_eq_none_of_all (fun z _ => by simp [h z])
    simp only [Size.from_filename, hf]
  · intro s h
    have hf : Size.all.find? (fun z => z.value == pyLower (pyTrim s)) = none :=
      find?_eq_none_of_all (fun z _ => by simp [h z])
    simp only [Size.from_string, hf]

/-- C3 witness: the four entry points at the unrecognized token "bogus". -/
theorem C3_normalization_total_failure_witness :
    GType.from_filename "bogus" = .error (.valueError "bogus is not a valid Type") ∧
    GType.from_string "bogus" = .error (.validationError "Unknown cache type bogus.") ∧
    Size.from_filename "bogus" = .error (.keyError "bogus") ∧
    Size.from_string "bogus" = .error (.validationError "Unknown cache type bogus.") :=
  ⟨C3_normalization_total_failure.1 "bogus" (fun t => by cases t <;> decide),
   C3_normalization_total_failure.2.1 "bogus" (by decide),
   C3_normalization_total_failure.2.2.1 "bogus" (fun z => by cases z <;> decide),
   C3_normalization_total_failure.2.2.2 "bogus" (fun z => by cases z <;> decide)⟩

/-- C6: a difficulty/terrain value outside the closed range 1 to 5 or off
the half-integer grid is rejected with the domain validation error; a
conforming value is stored and read back exactly. -/
theorem C6_difficulty_terrain_validation (d : ℚ) :
    ((d < 1 ∨ 5 < d ∨ ¬ ∃ k : ℤ, d = (k : ℚ) / 2) →
      difficulty_setter d = .error (.validationError
        "Difficulty must be from 1 to 5 and divisible by 0.5.") ∧
      terrain_setter d = .error (.validationError
        "Terrain must be from 1 to 5 and divisible by 0.5.")) ∧
    ((1 ≤ d ∧ d ≤ 5 ∧ ∃ k : ℤ, d = (k : ℚ) / 2) →
      difficulty_setter d = .ok d ∧ terrain_setter d = .ok d) := by
  constructor
  · intro h
    have hcond : d < 1 ∨ 5 < d ∨ pyfmod (d * 10) 5 ≠ 0 := by
      rcases h with h | h | h
      · exact Or.inl h
      · exact Or.inr (Or.inl h)
      · exact Or.inr (Or.inr (fun he => h ((pyfmod_half_iff d).mp he)))
    constructor
    · unfold difficulty_setter
      rw [if_pos hcond]
    · unfold terrain_setter
      rw [if_pos hcond]
  · rintro ⟨h1, h5, hk⟩
    have hcond : ¬ (d < 1 ∨ 5 < d ∨ pyfmod (d * 10) 5 ≠ 0) := by
      push_neg
      exact ⟨h1, h5, (pyfmod_half_iff d).mpr hk⟩
    constructor
    · unfold difficulty_setter
      rw [if_neg hcond]
    · unfold terrain_setter
      rw [if_neg hcond]

/-- C6 witness: 1.5 is accepted and stored exactly by both setters; 0.7 is
rejected by both (off the half-integer grid). -/
theorem C6_difficulty_terrain_validation_witness :
    difficulty_setter (3 / 2 : ℚ) = .ok (3 / 2 : ℚ) ∧
    terrain_setter (3 / 2 : ℚ) = .ok (3 / 2 : ℚ) ∧
    difficulty_setter (7 / 10 : ℚ) = .error (.validationError
      "Difficulty must be from 1 to 5 and divisible by 0.5.") ∧
    terrain_setter (7 / 10 : ℚ) = .error (.validationError
      "Terrain must be from 1 to 5 and divisible by 0.5.") := by
  have hok := (C6_difficulty_terrain_validation (3 / 2)).2
    ⟨by norm_num, by norm_num, ⟨3, by norm_num⟩⟩
  have hbad := (C6_difficulty_terrain_validation (7 / 10)).1
    (Or.inr (Or.inr (by
      rintro ⟨k, hk⟩
      have h2 : (5 : ℚ) * (k : ℚ) = 7 := by linarith
      have h3 : (5 : ℤ) * k = 7 := by exact_mod_cast h2
      omega)))
  exact ⟨hok.1, hok.2, hbad.1, hbad.2⟩

/-- C7: the two filename tokens of the duplicated earthcache icon,
"earthcache" and "137", both normalize to the canonical earthcache Type. -/
theorem C7_earthcache_aliases :
    GType.from_filename "earthcache" = .ok GType.earthcache ∧
    GType.from_filename "137" = .ok GType.earthcache :=
  ⟨rfl, rfl⟩

/-- The warning list produced by the `attributes` setter: exactly the
normalized names of the input entries outside the vocabulary, in order. -/
theorem attributes_setter_warnings (input : List (String × Bool)) :
    (attributes_setter input).2 =
      input.filterMap (fun p =>
        if possible_attributes.contains (pyLower (pyTrim p.1)) then none
        else some (pyLower (pyTrim p.1))) := by
  suffices h : ∀ acc : List (String × Bool) × List String,
      (input.foldl
        (fun acc p =>
          let name := pyLower (pyTrim p.1)
          if possible_attributes.contains name then (dictInsert acc.1 name p.2, acc.2)
          else (acc.1, acc.2 ++ [name]))
        acc).2 =
      acc.2 ++ input.filterMap (fun p =>
        if possible_attributes.contains (pyLower (pyTrim p.1)) then none
        else some (pyLower (pyTrim p.1))) by
    simpa [attributes_setter] using h ([], [])
  induction input with
  | nil => intro acc; simp
  | cons p rest ih =>
    intro acc
    rw [List.foldl_cons, List.filterMap_cons]
    cases hv : possible_attributes.contains (pyLower (pyTrim p.1)) with
    | true =>
      simp only [hv, if_true]
      rw [ih]
    | false =>
      simp only [hv, Bool.false_eq_true, if_false]
      rw [ih]
      simp

/-- C8 amended: assigning a dict to `attributes` never raises; every entry
whose trimmed + lowercased key is outside the fixed vocabulary is dropped
(absent from the stored mapping) and its normalized name is warned about;
every entry with a recognized key is present in the stored mapping, the
stored value being that of the last input entry with the same normalized
key (the given value, whenever normalized keys are distinct). -/
theorem C8_attributes_vocabulary (input : List (String × Bool)) :
    (∀ k v, (k, v) ∈ input →
      possible_attributes.contains (pyLower (pyTrim k)) = false →
      dictGet (attributes_setter input).1 (pyLower (pyTrim k)) = none ∧
      (pyLower (pyTrim k)) ∈ (attributes_setter input).2) ∧
    (∀ k v, (k, v) ∈ input →
      possible_attributes.contains (pyLower (pyTrim k)) = true →
      dictGet (attributes_setter input).1 (pyLower (pyTrim k)) =
        lastAttrValue input (pyLower (pyTrim k))) := by
  constructor
  · intro k v hmem hvoc
    constructor
    · rw [attributes_setter_get, hvoc]
      simp
    · rw [attributes_setter_warnings]
      exact List.mem_filterMap.mpr ⟨(k, v), hmem, by rw [hvoc]; simp⟩
  · intro k v hmem hvoc
    rw [attributes_setter_get, hvoc]
    simp

/-- C8 counterexample: the dict with the two distinct raw keys "dogs" and
" dogs" (which normalize to the same vocabulary key) stores the value of
the *last* entry, so the recognized entry `("dogs", true)` is not present
with the value it gave. -/
theorem C8_attributes_counterexample :
    ("dogs", true) ∈ [("dogs", true), (" dogs", false)] ∧
    dictGet (attributes_setter [("dogs", true), (" dogs", false)]).1
      (pyLower (pyTrim "dogs")) = some false ∧
    (some false : Option Bool) ≠ some true :=
  ⟨by decide, by decide, by decide⟩

/-- C8 witness: an unknown key is dropped and warned about; a recognized
key is present with its (last) given value. -/
theorem C8_attributes_vocabulary_witness :
    dictGet (attributes_setter
        [("dogs", true), (" dogs", false), ("made_up_key", true)]).1
      "made_up_key" = none ∧
    "made_up_key" ∈ (attributes_setter
        [("dogs", true), (" dogs", false), ("made_up_key", true)]).2 ∧
    dictGet (attributes_setter
        [("dogs", true), (" dogs", false), ("made_up_key", true)]).1
      "dogs" = some false := by
  have h1 := (C8_attributes_vocabulary
      [("dogs", true), (" dogs", false), ("made_up_key", true)]).1
    "made_up_key" true (by decide) (by decide)
  have h2 := (C8_attributes_vocabulary
      [("dogs", true), (" dogs", false), ("made_up_key", true)]).2
    " dogs" false (by decide) (by decide)
  exact ⟨h1.1, h1.2, h2⟩

/-- C9: in the full-load procedure, the found-status determination is true
exactly when a `FoundStatus` block exists, regardless of the block's text,
and false when it is absent. -/
theorem C9_found_status (c : CacheState) (page : Page) (c1 : CacheState)
    (h : Cache.load c page = .ok c1) :
    c1.found = some page.found_tag.isSome ∧
    found_setter (found_raw page.found_tag) = page.found_tag.isSome := by
  obtain ⟨w1, ty, dif, ter, sz, _, _, _, _, _, hc1⟩ := load_ok_shape h
  subst hc1
  refine ⟨?_, found_raw_eq_isSome page.found_tag⟩
  simp [found_raw_eq_isSome]

/-- C9 witness: the concrete load with a found block whose text is neither
"Found It!" nor contains "Attended" still stores `found = true`. -/
theorem C9_found_status_witness :
    wit_c1.found = some wit_page.found_tag.isSome ∧
    found_setter (found_raw wit_page.found_tag) = wit_page.found_tag.isSome :=
  C9_found_status wit_c0 wit_page wit_c1 wit_load_eq

/-- C10: assigning `attributes` replaces the whole previous mapping: after
a second assignment the state holds exactly the mapping built from the
second dict, and a key stored by the first assignment with no entry of the
second dict normalizing to it is gone. -/
theorem C10_attributes_replace (c : CacheState) (d1 d2 : List (String × Bool)) :
    (set_attributes (set_attributes c d1) d2).attributes
        = some (attributes_setter d2).1 ∧
    (∀ key v, (key, v) ∈ (attributes_setter d1).1 →
      lastAttrValue d2 key = none →
      dictGet (attributes_setter d2).1 key = none) := by
  constructor
  · rfl
  · intro key v hmem hnone
    rw [attributes_setter_get]
    cases hv : possible_attributes.contains key with
    | true => simp [hnone]
    | false => simp

/-- C10 witness: `{"dogs": True}` then `{"fee": False}` leaves exactly the
second mapping, with "dogs" gone. -/
theorem C10_attributes_replace_witness :
    (set_attributes (set_attributes {} [("dogs", true)]) [("fee", false)]).attributes
      = some (attributes_setter [("fee", false)]).1 ∧
    dictGet (attributes_setter [("fee", false)]).1 "dogs" = none :=
  ⟨(C10_attributes_replace {} [("dogs", true)] [("fee", false)]).1,
   (C10_attributes_replace {} [("dogs", true)] [("fee", false)]).2 "dogs" true
     (by decide) (by decide)⟩

/-- Consuming a page of three entries with at least 3 of the limit left
yields all three and does not stop. -/
theorem logbook_consume_full_three (a b c : LogData) (n : Int) (h : 3 ≤ n) :
    logbook_consume [a, b, c] (.fin n) =
      ([Log.fromData a, Log.fromData b, Log.fromData c], .fin (n - 3), false) := by
  have h1 : (PyLimit.fin (n - 1)).isNeg = false := by
    simp only [PyLimit.isNeg, decide_eq_false_iff_not]
    omega
  have h2 : (PyLimit.fin (n - 1 - 1)).isNeg = false := by
    simp only [PyLimit.isNeg, decide_eq_false_iff_not]
    omega
  have h3 : (PyLimit.fin (n - 1 - 1 - 1)).isNeg = false := by
    simp only [PyLimit.isNeg, decide_eq_false_iff_not]
    omega
  simp only [logbook_consume, PyLimit.dec, h1, h2, h3, Bool.false_eq_true,
    if_false]
  rw [show n - 1 - 1 - 1 = n - 3 from by omega]

/-- Consuming a page of three entries with a remaining limit of 2 yields
two of them, drives the limit negative, and stops. -/
theorem logbook_consume_stop_two (a b c : LogData) :
    logbook_consume [a, b, c] (.fin 2) =
      ([Log.fromData a, Log.fromData b], .fin (-1), true) := by
  norm_num [logbook_consume, PyLimit.dec, PyLimit.isNeg]

/-- C4: an empty page (with a success envelope) ends the logbook sequence
normally — the run returns `ok` with no error — after exactly that one
page fetch; in particular `load_logbook` against a source whose first page
is empty yields zero entries with exactly one fetch. -/
theorem C4_empty_page_ends (source : Nat → Int → LogbookRes) (per_page : Int)
    (fuel page : Nat) (lim lim0 : PyLimit)
    (hfuel : 1 ≤ fuel)
    (hstatus : (source (page + 1) per_page).status = "success")
    (hdata : (source (page + 1) per_page).data = [])
    (hstatus0 : (source 1 lim0.min100).status = "success")
    (hdata0 : (source 1 lim0.min100).data = []) :
    logbook_loop source per_page fuel page lim
      = ([(page + 1, per_page)], .ok []) ∧
    load_logbook source lim0 fuel = ([(1, lim0.min100)], .ok []) := by
  obtain ⟨f, rfl⟩ : ∃ f, fuel = f + 1 := ⟨fuel - 1, by omega⟩
  constructor
  · simp [logbook_loop, hstatus, hdata]
  · simp [load_logbook, logbook_loop, hstatus0, hdata0]

/-- C4 witness: the all-empty source under an unbounded limit. -/
theorem C4_empty_page_ends_witness :
    logbook_loop empty_source 100 1 0 PyLimit.inf = ([(1, 100)], .ok []) ∧
    load_logbook empty_source PyLimit.inf 1 = ([(1, 100)], .ok []) :=
  C4_empty_page_ends empty_source 100 1 0 PyLimit.inf PyLimit.inf
    (by decide) rfl rfl rfl rfl

/-- C5 counterexample: with limit 5 against a source serving 3 entries per
page, the second page is requested with page size 5 — the page size is
fixed at `min(initial limit, 100)`, not the lesser of the *remaining*
limit (here 5 - 3 = 2) and 100 as the claim states. -/
theorem C5_page_size_counterexample :
    (load_logbook pages_of_three (.fin 5) 2).1 = [(1, 5), (2, 5)] ∧
    (5 : Int) ≠ min (5 - 3) 100 :=
  ⟨by decide, by decide⟩

/-- C5 amended: `load_logbook` with limit 5 against any source serving 3
entries per page (with success envelopes) yields exactly 5 entries over
exactly the two page fetches `(idx 1, num 5)` and `(idx 2, num 5)` — one-
based sequential indices, no 3rd fetch; every request uses the page size
`min(initial limit, 100)` computed once, not the remaining limit. -/
theorem C5_logbook_limit_pagination (source : Nat → Int → LogbookRes)
    (fuel : Nat) (hfuel : 2 ≤ fuel)
    (hstatus : ∀ i n, (source i n).status = "success")
    (hlen : ∀ i n, (source i n).data.length = 3) :
    (load_logbook source (.fin 5) fuel).1 = [(1, 5), (2, 5)] ∧
    (load_logbook source (.fin 5) fuel).2.map List.length = .ok 5 := by
  obtain ⟨f, rfl⟩ : ∃ f, fuel = f + 2 := ⟨fuel - 2, by omega⟩
  have hmin : (PyLimit.fin 5).min100 = 5 := by decide
  obtain ⟨a, b, c, habc⟩ := List.length_eq_three.mp (hlen 1 5)
  obtain ⟨d, e, g, hdeg⟩ := List.length_eq_three.mp (hlen 2 5)
  have hrun : load_logbook source (.fin 5) (f + 2)
      = ([(1, 5), (2, 5)],
         .ok [Log.fromData a, Log.fromData b, Log.fromData c,
              Log.fromData d, Log.fromData e]) := by
    unfold load_logbook
    rw [hmin]
    show logbook_loop source 5 (f + 1 + 1) 0 (.fin 5) = _
    rw [logbook_loop]
    simp only [Nat.zero_add, hstatus 1 5, habc,
      logbook_consume_full_three a b c 5 (by norm_num)]
    norm_num
    rw [logbook_loop]
    simp only [hstatus 2 5, hdeg, logbook_consume_stop_two d e g]
    norm_num
    rfl
  rw [hrun]
  constructor
  · rfl
  · rfl

/-- C5 witness: the concrete pages-of-three source. -/
theorem C5_logbook_limit_pagination_witness :
    (load_logbook pages_of_three (.fin 5) 2).1 = [(1, 5), (2, 5)] ∧
    (load_logbook pages_of_three (.fin 5) 2).2.map List.length = .ok 5 :=
  C5_logbook_limit_pagination pages_of_three 2 (by norm_num)
    (fun i n => rfl) (fun i n => rfl)
